import Mathlib

/-!
Shallow embedding of the bun-hono-react-monorepo authentication server.

The definitions below are translated from the TypeScript sources:
* `packages/shared/src/types` — shared entity and JWT payload types;
* `server/src/lib/password.ts` — password validation (`validatePassword`);
* `server/src/lib/jwt.ts` — token generation and verification;
* `server/src/lib/db.ts` — in-memory user/session repositories;
* `server/src/middleware/auth.ts` — ownership checks;
* `server/src/routes/auth.ts` — login / refresh / logout handlers;
* `server/src/routes/oauth.ts` — OAuth callback handlers.

Dates are modelled as natural numbers (milliseconds or seconds since the
epoch, as the corresponding TypeScript value), JavaScript `null`/absent
fields as `Option`, thrown `HTTPException`s as `Except` errors, and the
in-memory `Map` stores as association lists.
-/

namespace MonorepoAuth

-- ===========================================================================
-- Shared types (packages/shared/src/types/index.ts)
-- ===========================================================================

/-- User role enumeration (`UserRole` in the shared types). -/
inductive UserRole where
  | admin
  | user
  | moderator
deriving DecidableEq, Repr

/-- Token kind claim carried by every JWT (`'access' | 'refresh'`). -/
inductive TokenType where
  | access
  | refresh
deriving DecidableEq, Repr

/-- JWT payload as decoded by `verifyToken` (`JwtPayload` in shared types). -/
structure JwtPayload where
  sub : String
  email : String
  role : UserRole
  type : TokenType
  iat : Nat
  exp : Nat
deriving DecidableEq, Repr

/-- A thrown Hono `HTTPException`, carrying its HTTP status and message. -/
inductive HttpError where
  | httpException (status : Nat) (message : String)
deriving DecidableEq, Repr

-- ===========================================================================
-- Password validation (server/src/lib/password.ts)
-- ===========================================================================

/-- Password policy constants (`PASSWORD_REQUIREMENTS` in password.ts). -/
structure PasswordRequirements where
  minLength : Nat
  maxLength : Nat
  requireUppercase : Bool
  requireLowercase : Bool
  requireNumber : Bool
  requireSpecial : Bool
deriving DecidableEq, Repr

/-- The concrete policy: min 8, max 128, upper+lower+digit required,
special characters optional. -/
def PASSWORD_REQUIREMENTS : PasswordRequirements :=
  { minLength := 8
    maxLength := 128
    requireUppercase := true
    requireLowercase := true
    requireNumber := true
    requireSpecial := false }

/-- Character matched by the regex class `[A-Z]`. -/
def isUppercaseChar (c : Char) : Bool := 'A' ≤ c && c ≤ 'Z'

/-- Character matched by the regex class `[a-z]`. -/
def isLowercaseChar (c : Char) : Bool := 'a' ≤ c && c ≤ 'z'

/-- Character matched by the regex class `[0-9]`. -/
def isDigitChar (c : Char) : Bool := '0' ≤ c && c ≤ '9'

/-- Character matched by the special-character regex class in password.ts. -/
def isSpecialChar (c : Char) : Bool :=
  ['!', '@', '#', '$', '%', '^', '&', '*', '(', ')', ',', '.', '?',
   '"', ':', '\x7b', '\x7d', '|', '<', '>'].contains c

/-- Result record of `validatePassword` (`PasswordValidationResult`). -/
structure PasswordValidationResult where
  valid : Bool
  errors : List String
deriving DecidableEq, Repr

/-- Translation of `validatePassword`: each violated rule pushes one error
message, in source order; `valid` is true exactly when no error was pushed.
A regex class test `/[...]/.test(password)` is a scan over the string's
characters, modelled over `password.data`. -/
def validatePassword (password : String) : PasswordValidationResult :=
  let errors : List String :=
    (if password.length < PASSWORD_REQUIREMENTS.minLength then
      ["Password must be at least 8 characters"] else [])
    ++ (if password.length > PASSWORD_REQUIREMENTS.maxLength then
      ["Password must be at most 128 characters"] else [])
    ++ (if PASSWORD_REQUIREMENTS.requireUppercase
          && !(password.data.any isUppercaseChar) then
      ["Password must contain at least one uppercase letter"] else [])
    ++ (if PASSWORD_REQUIREMENTS.requireLowercase
          && !(password.data.any isLowercaseChar) then
      ["Password must contain at least one lowercase letter"] else [])
    ++ (if PASSWORD_REQUIREMENTS.requireNumber
          && !(password.data.any isDigitChar) then
      ["Password must contain at least one number"] else [])
    ++ (if PASSWORD_REQUIREMENTS.requireSpecial
          && !(password.data.any isSpecialChar) then
      ["Password must contain at least one special character"] else [])
  { valid := errors.isEmpty, errors := errors }

-- ===========================================================================
-- Ownership check (server/src/middleware/auth.ts)
-- ===========================================================================

/-- Hono request context after `requireAuth`: carries the verified user
payload (`c.get('user')`). -/
structure AuthContext where
  user : JwtPayload
deriving DecidableEq, Repr

/-- Translation of `isResourceOwner`: owner or admin. -/
def isResourceOwner (resourceUserId : String) (c : AuthContext) : Bool :=
  c.user.sub == resourceUserId || c.user.role == UserRole.admin

/-- Translation of `assertResourceOwner`: throws a 403 `HTTPException` when
`isResourceOwner` is false. -/
def assertResourceOwner (resourceUserId : String) (c : AuthContext) :
    Except HttpError Unit :=
  if !(isResourceOwner resourceUserId c) then
    Except.error
      (HttpError.httpException 403 "Access denied: you do not own this resource")
  else
    Except.ok ()

-- ===========================================================================
-- JWT utilities (server/src/lib/jwt.ts)
-- ===========================================================================

/-- Issuer claim constant (`ISSUER`). -/
def ISSUER : String := "monorepo-api"

/-- Audience claim constant (`AUDIENCE`). -/
def AUDIENCE : String := "monorepo-client"

/-- Signing algorithm constant (`ALGORITHM`). -/
def ALGORITHM : String := "HS256"

/-- Access-token lifetime in seconds (`ACCESS_TOKEN_EXPIRY = '15m'`). -/
def ACCESS_TOKEN_EXPIRY_SECONDS : Nat := 15 * 60

/-- Refresh-token lifetime in seconds (`REFRESH_TOKEN_EXPIRY = '7d'`). -/
def REFRESH_TOKEN_EXPIRY_SECONDS : Nat := 7 * 24 * 60 * 60

/-- Input of token generation (`TokenPayload` in jwt.ts). -/
structure TokenPayload where
  userId : String
  email : String
  role : UserRole
deriving DecidableEq, Repr

/-- A signed JWT, modelled as its protected header, claim set, and the key
bytes it was signed with (`jose` guarantees verification succeeds exactly
for the signing key). -/
structure SignedJwt where
  alg : String
  sub : String
  email : String
  role : UserRole
  type : TokenType
  iat : Nat
  iss : String
  aud : String
  exp : Nat
  key : List Nat
deriving DecidableEq, Repr

/-- Translation of `generateAccessToken`: claims `type: 'access'`, issued at
`now` (seconds), expiring 15 minutes later, signed with `key`. -/
def generateAccessToken (now : Nat) (key : List Nat) (p : TokenPayload) :
    SignedJwt :=
  { alg := ALGORITHM
    sub := p.userId
    email := p.email
    role := p.role
    type := TokenType.access
    iat := now
    iss := ISSUER
    aud := AUDIENCE
    exp := now + ACCESS_TOKEN_EXPIRY_SECONDS
    key := key }

/-- Translation of `generateRefreshToken`: claims `type: 'refresh'`,
expiring 7 days after issuance. -/
def generateRefreshToken (now : Nat) (key : List Nat) (p : TokenPayload) :
    SignedJwt :=
  { alg := ALGORITHM
    sub := p.userId
    email := p.email
    role := p.role
    type := TokenType.refresh
    iat := now
    iss := ISSUER
    aud := AUDIENCE
    exp := now + REFRESH_TOKEN_EXPIRY_SECONDS
    key := key }

/-- Result record of `generateTokenPair`. -/
structure TokenPair where
  accessToken : SignedJwt
  refreshToken : SignedJwt
  expiresIn : Nat
deriving DecidableEq, Repr

/-- Translation of `generateTokenPair`: both tokens plus the access-token
lifetime in seconds. -/
def generateTokenPair (now : Nat) (key : List Nat) (p : TokenPayload) :
    TokenPair :=
  { accessToken := generateAccessToken now key p
    refreshToken := generateRefreshToken now key p
    expiresIn := 15 * 60 }

/-- Translation of `verifyToken`: `jose`'s `jwtVerify` checks the signature,
allowed algorithm, issuer, audience and expiry (in that spirit; the exact
`jose` error strings are abstracted), then the function rejects payloads
with missing (falsy) `sub`, `exp` or `iat` claims. -/
def verifyToken (now : Nat) (key : List Nat) (t : SignedJwt) :
    Except String JwtPayload :=
  if t.key ≠ key then
    Except.error "signature verification failed"
  else if t.alg ≠ ALGORITHM then
    Except.error "unexpected JWT alg header parameter"
  else if t.iss ≠ ISSUER then
    Except.error "unexpected iss claim value"
  else if t.aud ≠ AUDIENCE then
    Except.error "unexpected aud claim value"
  else if t.exp ≤ now then
    Except.error "exp claim timestamp check failed"
  else if t.sub = "" ∨ t.exp = 0 ∨ t.iat = 0 then
    Except.error "Invalid token payload: missing required claims"
  else
    Except.ok
      { sub := t.sub
        email := t.email
        role := t.role
        type := t.type
        iat := t.iat
        exp := t.exp }

/-- Translation of `verifyAccessToken`: `verifyToken` plus the
`type === 'access'` check. -/
def verifyAccessToken (now : Nat) (key : List Nat) (t : SignedJwt) :
    Except String JwtPayload :=
  match verifyToken now key t with
  | Except.error e => Except.error e
  | Except.ok payload =>
    if payload.type ≠ TokenType.access then
      Except.error "Invalid token type: expected access token"
    else
      Except.ok payload

/-- Translation of `verifyRefreshToken`: `verifyToken` plus the
`type === 'refresh'` check. -/
def verifyRefreshToken (now : Nat) (key : List Nat) (t : SignedJwt) :
    Except String JwtPayload :=
  match verifyToken now key t with
  | Except.error e => Except.error e
  | Except.ok payload =>
    if payload.type ≠ TokenType.refresh then
      Except.error "Invalid token type: expected refresh token"
    else
      Except.ok payload

/-- Projection used to state round-trip results: the `sub` claim of a
successful verification. -/
def subOf : Except String JwtPayload → Option String
  | Except.ok payload => some payload.sub
  | Except.error _ => none

-- ===========================================================================
-- Session repository (server/src/lib/db.ts)
-- ===========================================================================

/-- Session entity (`Session` in shared types); `expiresAt`/`createdAt` are
epoch milliseconds. -/
structure Session where
  id : String
  userId : String
  userAgent : Option String
  ipAddress : Option String
  expiresAt : Nat
  createdAt : Nat
deriving DecidableEq, Repr

/-- The in-memory `sessions: Map<SessionId, Session>` store, as an
association list of id/session pairs. -/
abbrev SessionStore := List (String × Session)

/-- Translation of `sessionRepository.deleteByUserId`: iterate over the map,
delete every session of `userId`, and count the deletions. -/
def sessionsDeleteByUserId (userId : String) : SessionStore → SessionStore × Nat
  | [] => ([], 0)
  | (id, s) :: rest =>
    let res := sessionsDeleteByUserId userId rest
    if s.userId == userId then (res.1, res.2 + 1)
    else ((id, s) :: res.1, res.2)

/-- Translation of `sessionRepository.deleteExpired`: delete every session
whose `expiresAt` is strictly before `now`, counting the deletions. -/
def sessionsDeleteExpired (now : Nat) : SessionStore → SessionStore × Nat
  | [] => ([], 0)
  | (id, s) :: rest =>
    let res := sessionsDeleteExpired now rest
    if s.expiresAt < now then (res.1, res.2 + 1)
    else ((id, s) :: res.1, res.2)

/-- Response envelope returned by the logout route. -/
structure ApiMessageResponse where
  success : Bool
  message : String
deriving DecidableEq, Repr

/-- Translation of the `POST /api/auth/logout` handler body: after
`requireAuth` has bound `user`, delete all of that user's sessions and
answer with a success envelope. -/
def logoutHandler (user : JwtPayload) (store : SessionStore) :
    SessionStore × ApiMessageResponse :=
  let res := sessionsDeleteByUserId user.sub store
  (res.1, { success := true, message := "Logged out successfully" })

-- ===========================================================================
-- User repository (server/src/lib/db.ts)
-- ===========================================================================

/-- Public user entity (`User` in shared types): no password hash field. -/
structure User where
  id : String
  email : String
  name : String
  role : UserRole
  emailVerified : Bool
  avatarUrl : Option String
  createdAt : Nat
  updatedAt : Nat
deriving DecidableEq, Repr

/-- Stored user row (`StoredUser` in db.ts): the public fields plus the
nullable password hash. -/
structure StoredUser where
  id : String
  email : String
  name : String
  role : UserRole
  emailVerified : Bool
  avatarUrl : Option String
  createdAt : Nat
  updatedAt : Nat
  passwordHash : Option String
deriving DecidableEq, Repr

/-- JavaScript `String.prototype.toLowerCase`, modelled as a per-character
map over the string's characters. -/
def jsToLowerCase (s : String) : String := String.mk (s.data.map Char.toLower)

/-- The JavaScript rest-spread `const (passwordHash: _, ...publicUser) = user`
used throughout `userRepository`: every field except `passwordHash`. -/
def toPublicUser (s : StoredUser) : User :=
  { id := s.id
    email := s.email
    name := s.name
    role := s.role
    emailVerified := s.emailVerified
    avatarUrl := s.avatarUrl
    createdAt := s.createdAt
    updatedAt := s.updatedAt }

/-- The `users` map keyed by id together with the `usersByEmail` index,
modelled as a list of stored rows (emails are stored lowercased, so the
email index is lookup by lowercased email). -/
abbrev UserStore := List StoredUser

/-- Argument record of `userRepository.create`. -/
structure CreateUserData where
  email : String
  name : String
  passwordHash : Option String
  role : Option UserRole
  emailVerified : Option Bool
  avatarUrl : Option String
deriving DecidableEq, Repr

/-- Translation of `userRepository.create`: store the row (email lowercased,
role defaulting to `user`, `emailVerified` defaulting to false) and return
the user without its password hash. `newId` stands for the generated
TypeID and `now` for `new Date()`. -/
def userCreate (store : UserStore) (newId : String) (now : Nat)
    (d : CreateUserData) : User × UserStore :=
  let row : StoredUser :=
    { id := newId
      email := jsToLowerCase d.email
      name := d.name
      role := d.role.getD UserRole.user
      emailVerified := d.emailVerified.getD false
      avatarUrl := d.avatarUrl
      createdAt := now
      updatedAt := now
      passwordHash := d.passwordHash }
  (toPublicUser row, store ++ [row])

/-- Translation of `userRepository.findById`: look the row up and strip the
password hash. -/
def userFindById (store : UserStore) (id : String) : Option User :=
  (store.find? (fun s => s.id == id)).map toPublicUser

/-- Translation of `userRepository.findByEmail`: resolve the lowercased
email through the email index, then `findById`. -/
def userFindByEmail (store : UserStore) (email : String) : Option User :=
  (store.find? (fun s => s.email == jsToLowerCase email)).map toPublicUser

/-- Translation of `userRepository.findByEmailWithPassword`: the only
repository function that returns the stored password hash. -/
def userFindByEmailWithPassword (store : UserStore) (email : String) :
    Option (User × Option String) :=
  (store.find? (fun s => s.email == jsToLowerCase email)).map
    (fun s => (toPublicUser s, s.passwordHash))

/-- Argument record of `userRepository.update` (only present keys
override). -/
structure UpdateUserData where
  name : Option String
  avatarUrl : Option String
  role : Option UserRole
  emailVerified : Option Bool
deriving DecidableEq, Repr

/-- The object spread `(...user, ...data, updatedAt: new Date())` of
`userRepository.update`. -/
def applyUserUpdate (now : Nat) (d : UpdateUserData) (s : StoredUser) :
    StoredUser :=
  { s with
    name := d.name.getD s.name
    avatarUrl := (d.avatarUrl).elim s.avatarUrl some
    role := d.role.getD s.role
    emailVerified := d.emailVerified.getD s.emailVerified
    updatedAt := now }

/-- Translation of `userRepository.update`: patch the row if it exists and
return the updated user without its password hash. -/
def userUpdate (store : UserStore) (id : String) (now : Nat)
    (d : UpdateUserData) : Option User × UserStore :=
  match store.find? (fun s => s.id == id) with
  | none => (none, store)
  | some s =>
    let updated := applyUserUpdate now d s
    (some (toPublicUser updated),
     store.map (fun r => if r.id == id then updated else r))

-- ===========================================================================
-- Login handler (server/src/routes/auth.ts, POST /api/auth/login)
-- ===========================================================================

/-- The hard-coded decoy hash compared against when the account is absent or
has no password (timing-attack equalization). -/
def DUMMY_HASH : String := "$2a$12$dummy.hash.to.prevent.timing.attacks"

/-- Translation of the `POST /api/auth/login` handler body. `vp` stands for
the bcrypt `verifyPassword` comparison. Besides the outcome (thrown
`HTTPException` or the authenticated user, after which the route issues a
token pair and creates a session), the model records every
`verifyPassword` invocation as a (password, hash) pair, so that the decoy
comparison is observable. -/
def loginHandler (vp : String → String → Bool) (store : UserStore)
    (email password : String) :
    Except HttpError User × List (String × String) :=
  if email = "" ∨ password = "" then
    (Except.error (HttpError.httpException 400 "Email and password are required"),
     [])
  else
    match userFindByEmailWithPassword store email with
    | none =>
      (Except.error (HttpError.httpException 401 "Invalid email or password"),
       [(password, DUMMY_HASH)])
    | some (_, none) =>
      (Except.error (HttpError.httpException 401 "Invalid email or password"),
       [(password, DUMMY_HASH)])
    | some (user, some hash) =>
      if vp password hash then
        (Except.ok user, [(password, hash)])
      else
        (Except.error (HttpError.httpException 401 "Invalid email or password"),
         [(password, hash)])

-- ===========================================================================
-- Refresh handler (server/src/routes/auth.ts, POST /api/auth/refresh)
-- ===========================================================================

/-- Success payload of the refresh route (`RefreshTokenResponse`). -/
structure RefreshTokenResponse where
  accessToken : SignedJwt
  expiresIn : Nat
deriving DecidableEq, Repr

/-- Translation of the `POST /api/auth/refresh` handler body. The request
body's `refreshToken` is `none` when missing or empty (falsy). Every
failure inside the `try` block — including the handler's own
`HTTPException(401, 'User not found')` thrown when the user vanished — is
caught by the surrounding `catch`, which rethrows
`HTTPException(401, 'Invalid or expired refresh token')`. -/
def refreshHandler (now : Nat) (key : List Nat) (store : UserStore)
    (refreshToken : Option SignedJwt) :
    Except HttpError RefreshTokenResponse :=
  match refreshToken with
  | none =>
    Except.error (HttpError.httpException 400 "Refresh token is required")
  | some tok =>
    match verifyRefreshToken now key tok with
    | Except.error _ =>
      Except.error (HttpError.httpException 401 "Invalid or expired refresh token")
    | Except.ok payload =>
      match userFindById store payload.sub with
      | none =>
        -- the inner `HTTPException(401, 'User not found')` is swallowed by
        -- the catch block and replaced by the generic 401
        Except.error
          (HttpError.httpException 401 "Invalid or expired refresh token")
      | some user =>
        let tokens := generateTokenPair now key
          { userId := user.id, email := user.email, role := user.role }
        Except.ok
          { accessToken := tokens.accessToken, expiresIn := tokens.expiresIn }

/-- HTTP status of a handler outcome: the thrown exception's status, or 200
for a successful JSON response. -/
def responseStatus {α : Type} : Except HttpError α → Nat
  | Except.error (HttpError.httpException s _) => s
  | Except.ok _ => 200

-- ===========================================================================
-- OAuth callbacks (server/src/routes/oauth.ts)
-- ===========================================================================

/-- JavaScript truthiness of an optional query/cookie string: missing or
empty strings are falsy. -/
def falsy : Option String → Bool
  | none => true
  | some s => s == ""

/-- The parts of the callback request the handlers read: the `code` and
`state` query parameters and the `oauth_state` / `oauth_code_verifier`
cookies. -/
structure OAuthCallbackRequest where
  code : Option String
  state : Option String
  cookieState : Option String
  cookieVerifier : Option String
deriving DecidableEq, Repr

/-- Outbound network calls a callback handler can make to the provider. -/
inductive NetworkCall where
  | tokenExchange
  | userInfoFetch
deriving DecidableEq, Repr

/-- How a callback request is answered: a thrown `HTTPException` (rendered
as a JSON error envelope) or a 302 redirect. -/
inductive CallbackResponse where
  | jsonError (status : Nat) (message : String)
  | redirect (url : String)
deriving DecidableEq, Repr

/-- Full observable outcome of one callback request: the response, the
cookies deleted by `deleteCookie`, and the provider calls made. -/
structure CallbackOutcome where
  response : CallbackResponse
  clearedCookies : List String
  networkCalls : List NetworkCall
deriving DecidableEq, Repr

/-- User-info record fetched from Google's userinfo endpoint. -/
structure GoogleUserInfo where
  id : String
  email : String
  name : String
  picture : Option String
deriving DecidableEq, Repr

/-- Translation of the `GET /api/auth/callback/google` handler.
`exchange` stands for `google.validateAuthorizationCode` (none = throw),
`fetchUserInfo` for the userinfo fetch (none = network failure or
`!response.ok`), and `handleUser` for `handleOAuthUser` plus token
issuance, producing the access/refresh token strings appended to the
frontend redirect (none = a throw inside, e.g. the 500 when the linked
user row vanished). Any of these failures is caught by the `try/catch`
and redirected to the frontend error page. -/
def googleCallback (frontendUrl : String)
    (exchange : String → String → Option String)
    (fetchUserInfo : String → Option GoogleUserInfo)
    (handleUser : GoogleUserInfo → String → Option (String × String))
    (req : OAuthCallbackRequest) : CallbackOutcome :=
  let cleared := ["oauth_state", "oauth_code_verifier"]
  if falsy req.state = true ∨ falsy req.cookieState = true ∨ req.state ≠ req.cookieState then
    { response := CallbackResponse.jsonError 400 "Invalid OAuth state"
      clearedCookies := cleared
      networkCalls := [] }
  else if falsy req.code = true ∨ falsy req.cookieVerifier = true then
    { response :=
        CallbackResponse.jsonError 400 "Missing authorization code or verifier"
      clearedCookies := cleared
      networkCalls := [] }
  else
    match exchange (req.code.getD "") (req.cookieVerifier.getD "") with
    | none =>
      { response :=
          CallbackResponse.redirect (frontendUrl ++ "/auth/error?provider=google")
        clearedCookies := cleared
        networkCalls := [NetworkCall.tokenExchange] }
    | some accessToken =>
      match fetchUserInfo accessToken with
      | none =>
        { response :=
            CallbackResponse.redirect (frontendUrl ++ "/auth/error?provider=google")
          clearedCookies := cleared
          networkCalls := [NetworkCall.tokenExchange, NetworkCall.userInfoFetch] }
      | some googleUser =>
        match handleUser googleUser accessToken with
        | none =>
          { response :=
              CallbackResponse.redirect (frontendUrl ++ "/auth/error?provider=google")
            clearedCookies := cleared
            networkCalls := [NetworkCall.tokenExchange, NetworkCall.userInfoFetch] }
        | some (accessJwt, refreshJwt) =>
          { response :=
              CallbackResponse.redirect
                (frontendUrl ++ "/auth/callback?accessToken=" ++ accessJwt
                  ++ "&refreshToken=" ++ refreshJwt)
            clearedCookies := cleared
            networkCalls := [NetworkCall.tokenExchange, NetworkCall.userInfoFetch] }

/-- User-info record fetched from Facebook's Graph API; Facebook may omit
the email. -/
structure FacebookUserInfo where
  id : String
  email : Option String
  name : String
  pictureUrl : Option String
deriving DecidableEq, Repr

/-- Translation of the `GET /api/auth/callback/facebook` handler. Facebook
uses no PKCE verifier: the handler reads and deletes only the
`oauth_state` cookie, and a missing email (a thrown 400 inside the `try`)
is also caught and turned into the error redirect. -/
def facebookCallback (frontendUrl : String)
    (exchange : String → Option String)
    (fetchUserInfo : String → Option FacebookUserInfo)
    (handleUser : FacebookUserInfo → String → Option (String × String))
    (req : OAuthCallbackRequest) : CallbackOutcome :=
  let cleared := ["oauth_state"]
  if falsy req.state = true ∨ falsy req.cookieState = true ∨ req.state ≠ req.cookieState then
    { response := CallbackResponse.jsonError 400 "Invalid OAuth state"
      clearedCookies := cleared
      networkCalls := [] }
  else if falsy req.code = true then
    { response := CallbackResponse.jsonError 400 "Missing authorization code"
      clearedCookies := cleared
      networkCalls := [] }
  else
    match exchange (req.code.getD "") with
    | none =>
      { response :=
          CallbackResponse.redirect (frontendUrl ++ "/auth/error?provider=facebook")
        clearedCookies := cleared
        networkCalls := [NetworkCall.tokenExchange] }
    | some accessToken =>
      match fetchUserInfo accessToken with
      | none =>
        { response :=
            CallbackResponse.redirect (frontendUrl ++ "/auth/error?provider=facebook")
          clearedCookies := cleared
          networkCalls := [NetworkCall.tokenExchange, NetworkCall.userInfoFetch] }
      | some fbUser =>
        match fbUser.email with
        | none =>
          -- the thrown 400 "Email not provided by Facebook" is caught by
          -- the surrounding catch and becomes the error redirect
          { response :=
              CallbackResponse.redirect (frontendUrl ++ "/auth/error?provider=facebook")
            clearedCookies := cleared
            networkCalls := [NetworkCall.tokenExchange, NetworkCall.userInfoFetch] }
        | some _ =>
          match handleUser fbUser accessToken with
          | none =>
            { response :=
                CallbackResponse.redirect
                  (frontendUrl ++ "/auth/error?provider=facebook")
              clearedCookies := cleared
              networkCalls := [NetworkCall.tokenExchange, NetworkCall.userInfoFetch] }
          | some (accessJwt, refreshJwt) =>
            { response :=
                CallbackResponse.redirect
                  (frontendUrl ++ "/auth/callback?accessToken=" ++ accessJwt
                    ++ "&refreshToken=" ++ refreshJwt)
              clearedCookies := cleared
              networkCalls := [NetworkCall.tokenExchange, NetworkCall.userInfoFetch] }

/-- User-info record fetched from Twitter's API v2 (no email). -/
structure TwitterUserInfo where
  id : String
  name : String
  username : String
  profileImageUrl : Option String
deriving DecidableEq, Repr

/-- Translation of the `GET /api/auth/callback/twitter` handler: same shape
as the Google one (PKCE verifier, both cookies cleared), with a
placeholder email substituted for the missing Twitter email. -/
def twitterCallback (frontendUrl : String)
    (exchange : String → String → Option String)
    (fetchUserInfo : String → Option TwitterUserInfo)
    (handleUser : TwitterUserInfo → String → Option (String × String))
    (req : OAuthCallbackRequest) : CallbackOutcome :=
  let cleared := ["oauth_state", "oauth_code_verifier"]
  if falsy req.state = true ∨ falsy req.cookieState = true ∨ req.state ≠ req.cookieState then
    { response := CallbackResponse.jsonError 400 "Invalid OAuth state"
      clearedCookies := cleared
      networkCalls := [] }
  else if falsy req.code = true ∨ falsy req.cookieVerifier = true then
    { response :=
        CallbackResponse.jsonError 400 "Missing authorization code or verifier"
      clearedCookies := cleared
      networkCalls := [] }
  else
    match exchange (req.code.getD "") (req.cookieVerifier.getD "") with
    | none =>
      { response :=
          CallbackResponse.redirect (frontendUrl ++ "/auth/error?provider=twitter")
        clearedCookies := cleared
        networkCalls := [NetworkCall.tokenExchange] }
    | some accessToken =>
      match fetchUserInfo accessToken with
      | none =>
        { response :=
            CallbackResponse.redirect (frontendUrl ++ "/auth/error?provider=twitter")
          clearedCookies := cleared
          networkCalls := [NetworkCall.tokenExchange, NetworkCall.userInfoFetch] }
      | some twitterUser =>
        match handleUser twitterUser accessToken with
        | none =>
          { response :=
              CallbackResponse.redirect (frontendUrl ++ "/auth/error?provider=twitter")
            clearedCookies := cleared
            networkCalls := [NetworkCall.tokenExchange, NetworkCall.userInfoFetch] }
        | some (accessJwt, refreshJwt) =>
          { response :=
              CallbackResponse.redirect
                (frontendUrl ++ "/auth/callback?accessToken=" ++ accessJwt
                  ++ "&refreshToken=" ++ refreshJwt)
            clearedCookies := cleared
            networkCalls := [NetworkCall.tokenExchange, NetworkCall.userInfoFetch] }

-- ===========================================================================
-- Claim theorems
-- ===========================================================================

set_option maxHeartbeats 1000000 in
/-- C6: `validatePassword(p)` is valid iff the length is in [8,128] and the
password contains an uppercase letter, a lowercase letter and a digit;
when invalid, `errors` has exactly one entry per violated rule (so
"password" yields exactly 2 errors, while "Password123" and "Abcdefg1"
are valid). -/
theorem C6_validatePassword_correct :
    (∀ p : String,
      ((validatePassword p).valid = true ↔
        (8 ≤ p.length ∧ p.length ≤ 128 ∧
         p.data.any isUppercaseChar = true ∧
         p.data.any isLowercaseChar = true ∧
         p.data.any isDigitChar = true))) ∧
    (∀ p : String,
      (validatePassword p).errors.length =
        ((if p.length < 8 then 1 else 0) + (if 128 < p.length then 1 else 0)
          + (if p.data.any isUppercaseChar then 0 else 1)
          + (if p.data.any isLowercaseChar then 0 else 1)
          + (if p.data.any isDigitChar then 0 else 1))) ∧
    (validatePassword "password").valid = false ∧
    (validatePassword "password").errors.length = 2 ∧
    (validatePassword "Password123").valid = true ∧
    (validatePassword "Abcdefg1").valid = true := by
  refine ⟨?_, ?_, by decide, by decide, by decide, by decide⟩
  · intro p
    simp only [validatePassword, PASSWORD_REQUIREMENTS, Bool.true_and,
      Bool.false_and]
    split_ifs <;> simp_all
  · intro p
    simp only [validatePassword, PASSWORD_REQUIREMENTS, Bool.true_and,
      Bool.false_and]
    split_ifs <;> simp_all

/-- C8: `assertResourceOwner(ownerId, ctx)` succeeds iff the caller is the
owner or an admin, and otherwise throws the 403 authorization error. -/
theorem C8_assertResourceOwner_iff :
    (∀ (ownerId : String) (c : AuthContext),
      assertResourceOwner ownerId c = Except.ok () ↔
        (c.user.sub = ownerId ∨ c.user.role = UserRole.admin)) ∧
    (∀ (ownerId : String) (c : AuthContext),
      assertResourceOwner ownerId c =
          Except.error
            (HttpError.httpException 403
              "Access denied: you do not own this resource") ↔
        ¬(c.user.sub = ownerId ∨ c.user.role = UserRole.admin)) := by
  constructor <;> intro ownerId c <;>
    simp [assertResourceOwner, isResourceOwner] <;> tauto

/-- Helper: `deleteByUserId` keeps exactly the sessions of other users, in
their original order. -/
theorem sessionsDeleteByUserId_fst (userId : String) (store : SessionStore) :
    (sessionsDeleteByUserId userId store).1
      = store.filter (fun e => !(e.2.userId == userId)) := by
  induction store with
  | nil => rfl
  | cons hd tl ih =>
    obtain ⟨id, s⟩ := hd
    cases h : s.userId == userId <;>
      simp [sessionsDeleteByUserId, List.filter_cons, h, ih]

/-- C5: after a logout by user `u`, the session store holds no session of
`u`, and is exactly the original store restricted to the other users'
sessions (each unchanged, in order); the route answers with its success
envelope. -/
theorem C5_logout_deletes_all_sessions_of_user :
    ∀ (u : JwtPayload) (store : SessionStore),
      (logoutHandler u store).1
          = store.filter (fun e => !(e.2.userId == u.sub)) ∧
      (logoutHandler u store).1.all (fun e => !(e.2.userId == u.sub)) = true ∧
      (logoutHandler u store).2
          = { success := true, message := "Logged out successfully" } := by
  intro u store
  have h1 : (logoutHandler u store).1
      = store.filter (fun e => !(e.2.userId == u.sub)) :=
    sessionsDeleteByUserId_fst u.sub store
  refine ⟨h1, ?_, rfl⟩
  rw [h1]
  simp only [List.all_eq_true]
  intro e he
  exact (List.mem_filter.mp he).2

/-- Helper: `deleteExpired` is the filter on unexpired sessions, and its
count is the number of expired ones. -/
theorem sessionsDeleteExpired_eq (now : Nat) (store : SessionStore) :
    sessionsDeleteExpired now store
      = (store.filter (fun e => !(decide (e.2.expiresAt < now))),
         (store.filter (fun e => decide (e.2.expiresAt < now))).length) := by
  induction store with
  | nil => rfl
  | cons hd tl ih =>
    obtain ⟨id, s⟩ := hd
    by_cases h : s.expiresAt < now <;>
      simp [sessionsDeleteExpired, List.filter_cons, h, ih]

/-- Helper: on a store with no expired session, `deleteExpired` deletes
nothing. -/
theorem sessionsDeleteExpired_of_all_unexpired (now : Nat) (store : SessionStore)
    (h : store.all (fun e => !(decide (e.2.expiresAt < now))) = true) :
    sessionsDeleteExpired now store = (store, 0) := by
  induction store with
  | nil => rfl
  | cons hd tl ih =>
    obtain ⟨id, s⟩ := hd
    simp only [List.all_cons, Bool.and_eq_true, Bool.not_eq_true',
      decide_eq_false_iff_not] at h
    simp [sessionsDeleteExpired, h.1, ih h.2]

/-- C9: `deleteExpired` removes exactly the sessions already past their
expiry (never an unexpired one), and running it again with no session
newly expired in between removes 0 sessions and leaves the store
unchanged. -/
theorem C9_deleteExpired_exact_and_idempotent :
    (∀ (now : Nat) (store : SessionStore),
      (sessionsDeleteExpired now store).1
          = store.filter (fun e => !(decide (e.2.expiresAt < now))) ∧
      (sessionsDeleteExpired now store).1.all
          (fun e => !(decide (e.2.expiresAt < now))) = true ∧
      (sessionsDeleteExpired now store).2
          = (store.filter (fun e => decide (e.2.expiresAt < now))).length) ∧
    (∀ (now1 now2 : Nat) (store : SessionStore),
      (sessionsDeleteExpired now1 store).1.all
          (fun e => !(decide (e.2.expiresAt < now2))) = true →
      sessionsDeleteExpired now2 (sessionsDeleteExpired now1 store).1
        = ((sessionsDeleteExpired now1 store).1, 0)) := by
  constructor
  · intro now store
    have heq := sessionsDeleteExpired_eq now store
    refine ⟨by rw [heq], ?_, by rw [heq]⟩
    rw [heq]
    simp only [List.all_eq_true]
    intro e he
    exact (List.mem_filter.mp he).2
  · intro now1 now2 store h
    exact sessionsDeleteExpired_of_all_unexpired now2 _ h

/-- Concrete session expiring at time 100, used by the C9 witness. -/
def sessionA : Session :=
  { id := "sess_a", userId := "user_a", userAgent := none, ipAddress := none,
    expiresAt := 100, createdAt := 0 }

/-- Concrete session expiring at time 300, used by the C9 witness. -/
def sessionB : Session :=
  { id := "sess_b", userId := "user_b", userAgent := none, ipAddress := none,
    expiresAt := 300, createdAt := 0 }

/-- Concrete session store used by the C9 witness. -/
def storeC9 : SessionStore := [("sess_a", sessionA), ("sess_b", sessionB)]

/-- C9 witness: sweeping at time 200 and again at time 250 (no session
expires in between) removes 0 sessions the second time. -/
theorem C9_deleteExpired_witness :
    sessionsDeleteExpired 250 (sessionsDeleteExpired 200 storeC9).1
      = ((sessionsDeleteExpired 200 storeC9).1, 0) :=
  C9_deleteExpired_exact_and_idempotent.2 200 250 storeC9 (by decide)

/-- Replace every stored password hash according to `f`: two stores related
this way agree on everything except password hashes. -/
def maskStoredHashes (f : String → Option String) (store : UserStore) :
    UserStore :=
  store.map (fun s => { s with passwordHash := f s.id })

/-- Helper: masking hashes commutes with lookup by id. -/
theorem find?_maskStoredHashes_id (f : String → Option String)
    (store : UserStore) (id : String) :
    (maskStoredHashes f store).find? (fun s => s.id == id)
      = (store.find? (fun s => s.id == id)).map
          (fun s => { s with passwordHash := f s.id }) := by
  induction store with
  | nil => rfl
  | cons hd tl ih =>
    cases h : hd.id == id <;>
      simp [maskStoredHashes, List.find?_cons, h, ih] <;>
      simpa [maskStoredHashes] using ih

/-- Helper: masking hashes commutes with lookup by stored email. -/
theorem find?_maskStoredHashes_email (f : String → Option String)
    (store : UserStore) (email : String) :
    (maskStoredHashes f store).find? (fun s => s.email == email)
      = (store.find? (fun s => s.email == email)).map
          (fun s => { s with passwordHash := f s.id }) := by
  induction store with
  | nil => rfl
  | cons hd tl ih =>
    cases h : hd.email == email <;>
      simp [maskStoredHashes, List.find?_cons, h, ih] <;>
      simpa [maskStoredHashes] using ih

/-- Concrete stored user with a password hash, used to show that
`findByEmailWithPassword` does expose the hash. -/
def storedUserC10 : StoredUser :=
  { id := "user_1", email := "a@b.c", name := "Alice", role := UserRole.user,
    emailVerified := true, avatarUrl := none, createdAt := 0, updatedAt := 0,
    passwordHash := some "hash1" }

/-- C10: every `User` returned by `create`, `findById`, `findByEmail` and
`update` is independent of the stored password hashes (the hash is
stripped before returning), while `findByEmailWithPassword` does depend
on — i.e. exposes — the stored hash. -/
theorem C10_repository_strips_password_hash :
    (∀ (s : StoredUser) (h : Option String),
      toPublicUser { s with passwordHash := h } = toPublicUser s) ∧
    (∀ (f : String → Option String) (store : UserStore) (id : String),
      userFindById (maskStoredHashes f store) id = userFindById store id) ∧
    (∀ (f : String → Option String) (store : UserStore) (email : String),
      userFindByEmail (maskStoredHashes f store) email
        = userFindByEmail store email) ∧
    (∀ (store : UserStore) (newId : String) (now : Nat) (d : CreateUserData)
      (h : Option String),
      (userCreate store newId now { d with passwordHash := h }).1
        = (userCreate store newId now d).1) ∧
    (∀ (f : String → Option String) (store : UserStore) (id : String)
      (now : Nat) (d : UpdateUserData),
      (userUpdate (maskStoredHashes f store) id now d).1
        = (userUpdate store id now d).1) ∧
    userFindByEmailWithPassword [storedUserC10] "a@b.c"
      ≠ userFindByEmailWithPassword
          (maskStoredHashes (fun _ => none) [storedUserC10]) "a@b.c" := by
  refine ⟨fun s h => rfl, ?_, ?_, fun store newId now d h => rfl, ?_, by decide⟩
  · intro f store id
    unfold userFindById
    rw [find?_maskStoredHashes_id]
    cases store.find? (fun s => s.id == id) <;> rfl
  · intro f store email
    unfold userFindByEmail
    rw [find?_maskStoredHashes_email]
    cases store.find? (fun s => s.email == jsToLowerCase email) <;> rfl
  · intro f store id now d
    unfold userUpdate
    rw [find?_maskStoredHashes_id]
    cases store.find? (fun s => s.id == id) <;> rfl

/-- C4: every failing login — unregistered email, OAuth-only account with
no password hash, or wrong password — yields the identical 401 response
"Invalid email or password"; in the first two cases the decoy comparison
against `DUMMY_HASH` is still performed before rejecting. -/
theorem C4_login_uniform_failure :
    ∀ (vp : String → String → Bool) (store : UserStore)
      (email password : String),
      email ≠ "" → password ≠ "" →
      ((userFindByEmailWithPassword store email = none →
        loginHandler vp store email password
          = (Except.error
              (HttpError.httpException 401 "Invalid email or password"),
             [(password, DUMMY_HASH)])) ∧
       (∀ u : User,
        userFindByEmailWithPassword store email = some (u, none) →
        loginHandler vp store email password
          = (Except.error
              (HttpError.httpException 401 "Invalid email or password"),
             [(password, DUMMY_HASH)])) ∧
       (∀ (u : User) (hash : String),
        userFindByEmailWithPassword store email = some (u, some hash) →
        vp password hash = false →
        loginHandler vp store email password
          = (Except.error
              (HttpError.httpException 401 "Invalid email or password"),
             [(password, hash)]))) := by
  intro vp store email password he hp
  have hcond : ¬(email = "" ∨ password = "") := by tauto
  refine ⟨?_, ?_, ?_⟩
  · intro hfind
    simp [loginHandler, hcond, hfind]
  · intro u hfind
    simp [loginHandler, hcond, hfind]
  · intro u hash hfind hvp
    simp [loginHandler, hcond, hfind, hvp]

/-- Concrete OAuth-only stored user (no password hash), for the C4
witness. -/
def storedUserOAuthOnly : StoredUser :=
  { id := "user_2", email := "oauth@b.c", name := "Oana",
    role := UserRole.user, emailVerified := true, avatarUrl := none,
    createdAt := 0, updatedAt := 0, passwordHash := none }

/-- Concrete stored user with a password hash, for the C4 witness. -/
def storedUserWithHash : StoredUser :=
  { id := "user_3", email := "pw@b.c", name := "Pat", role := UserRole.user,
    emailVerified := true, avatarUrl := none, createdAt := 0, updatedAt := 0,
    passwordHash := some "storedhash" }

/-- C4 witness: the three failing-login shapes at concrete inputs — unknown
email, OAuth-only account, wrong password — all produce the identical 401
and the expected hash comparisons. -/
theorem C4_login_witness :
    loginHandler (fun _ _ => false) [] "ghost@b.c" "Secret123"
        = (Except.error
            (HttpError.httpException 401 "Invalid email or password"),
           [("Secret123", DUMMY_HASH)]) ∧
    loginHandler (fun _ _ => false) [storedUserOAuthOnly] "oauth@b.c" "Secret123"
        = (Except.error
            (HttpError.httpException 401 "Invalid email or password"),
           [("Secret123", DUMMY_HASH)]) ∧
    loginHandler (fun _ _ => false) [storedUserWithHash] "pw@b.c" "Wrong123"
        = (Except.error
            (HttpError.httpException 401 "Invalid email or password"),
           [("Wrong123", "storedhash")]) := by
  refine ⟨?_, ?_, ?_⟩
  · exact (C4_login_uniform_failure (fun _ _ => false) [] "ghost@b.c"
      "Secret123" (by decide) (by decide)).1 (by decide)
  · exact (C4_login_uniform_failure (fun _ _ => false) [storedUserOAuthOnly]
      "oauth@b.c" "Secret123" (by decide) (by decide)).2.1
      (toPublicUser storedUserOAuthOnly) (by decide)
  · exact (C4_login_uniform_failure (fun _ _ => false) [storedUserWithHash]
      "pw@b.c" "Wrong123" (by decide) (by decide)).2.2
      (toPublicUser storedUserWithHash) "storedhash" (by decide) rfl

/-- C7: verifying the access token of a generated pair succeeds with `sub`
equal to the payload's `userId`; feeding the pair's refresh token to
`verifyAccessToken` fails with the access-type-mismatch error, and the
access token fed to `verifyRefreshToken` fails with the
refresh-type-mismatch error. (The verification time must fall inside the
access token's 15-minute validity window, the `userId` must be non-empty
and the issue time non-zero, or `verifyToken`'s falsy-claim check
rejects the token before the type check.) -/
theorem C7_token_pair_roundtrip :
    ∀ (p : TokenPayload) (now verifyTime : Nat) (key : List Nat),
      p.userId ≠ "" → 0 < now →
      verifyTime < now + ACCESS_TOKEN_EXPIRY_SECONDS →
      (subOf (verifyAccessToken verifyTime key
          (generateTokenPair now key p).accessToken) = some p.userId ∧
       verifyAccessToken verifyTime key
          (generateTokenPair now key p).refreshToken
         = Except.error "Invalid token type: expected access token" ∧
       verifyRefreshToken verifyTime key
          (generateTokenPair now key p).accessToken
         = Except.error "Invalid token type: expected refresh token") := by
  intro p now vt key hsub hnow hvt
  simp only [ACCESS_TOKEN_EXPIRY_SECONDS] at hvt
  have hexp1 : ¬(now + ACCESS_TOKEN_EXPIRY_SECONDS ≤ vt) := by
    simp only [ACCESS_TOKEN_EXPIRY_SECONDS]; omega
  have hexp2 : ¬(now + REFRESH_TOKEN_EXPIRY_SECONDS ≤ vt) := by
    simp only [REFRESH_TOKEN_EXPIRY_SECONDS]; omega
  have hne1 : ¬(now + ACCESS_TOKEN_EXPIRY_SECONDS = 0) := by
    simp only [ACCESS_TOKEN_EXPIRY_SECONDS]; omega
  have hne2 : ¬(now + REFRESH_TOKEN_EXPIRY_SECONDS = 0) := by
    simp only [REFRESH_TOKEN_EXPIRY_SECONDS]; omega
  have hiat : ¬(now = 0) := by omega
  refine ⟨?_, ?_, ?_⟩ <;>
    simp [generateTokenPair, generateAccessToken, generateRefreshToken,
      verifyAccessToken, verifyRefreshToken, verifyToken, subOf,
      hsub, hexp1, hexp2, hne1, hne2, hiat]

/-- C7 witness: the round-trip and type-separation facts at a concrete
payload, issue time 100, verification time 200, and key bytes [7]. -/
theorem C7_token_pair_witness :
    subOf (verifyAccessToken 200 [7]
        (generateTokenPair 100 [7]
          { userId := "user_w", email := "w@e.x", role := UserRole.user }
        ).accessToken) = some "user_w" ∧
    verifyAccessToken 200 [7]
        (generateTokenPair 100 [7]
          { userId := "user_w", email := "w@e.x", role := UserRole.user }
        ).refreshToken
      = Except.error "Invalid token type: expected access token" ∧
    verifyRefreshToken 200 [7]
        (generateTokenPair 100 [7]
          { userId := "user_w", email := "w@e.x", role := UserRole.user }
        ).accessToken
      = Except.error "Invalid token type: expected refresh token" :=
  C7_token_pair_roundtrip
    { userId := "user_w", email := "w@e.x", role := UserRole.user }
    100 200 [7] (by decide) (by decide) (by decide)

/-- Refresh token used by the C1 theorems: a valid refresh token whose
subject is absent from the user store. -/
def refreshTokC1 : SignedJwt :=
  generateRefreshToken 1000 [1]
    { userId := "user_gone", email := "g@x.y", role := UserRole.user }

/-- C1 counterexample: at a concrete input where the refresh token verifies
but the subject user no longer exists (empty user store), the refresh
route responds with status 401, not the 404 the claim states. -/
theorem C1_refresh_counterexample :
    subOf (verifyRefreshToken 1500 [1] refreshTokC1) = some "user_gone" ∧
    userFindById [] "user_gone" = none ∧
    responseStatus (refreshHandler 1500 [1] [] (some refreshTokC1)) = 401 ∧
    responseStatus (refreshHandler 1500 [1] [] (some refreshTokC1)) ≠ 404 := by
  refine ⟨by decide, rfl, by decide, by decide⟩

/-- C1 (amended): when the supplied refresh token verifies but the user
named by its subject claim no longer exists, the endpoint responds with a
401 — the handler's inner `HTTPException(401, 'User not found')` is
swallowed by its own catch block, which rethrows the generic
401 "Invalid or expired refresh token". -/
theorem C1_refresh_missing_user_401 :
    ∀ (now : Nat) (key : List Nat) (store : UserStore) (tok : SignedJwt)
      (payload : JwtPayload),
      verifyRefreshToken now key tok = Except.ok payload →
      userFindById store payload.sub = none →
      refreshHandler now key store (some tok)
        = Except.error
            (HttpError.httpException 401 "Invalid or expired refresh token") := by
  intro now key store tok payload hver hfind
  simp [refreshHandler, hver, hfind]

/-- C1 witness: the amended statement at the concrete counterexample
input. -/
theorem C1_refresh_missing_user_401_witness :
    refreshHandler 1500 [1] [] (some refreshTokC1)
      = Except.error
          (HttpError.httpException 401 "Invalid or expired refresh token") :=
  C1_refresh_missing_user_401 1500 [1] [] refreshTokC1
    { sub := "user_gone", email := "g@x.y", role := UserRole.user,
      type := TokenType.refresh, iat := 1000,
      exp := 1000 + REFRESH_TOKEN_EXPIRY_SECONDS }
    (by rfl) rfl

/-- Callback request with a mismatched `state` (and a stale verifier cookie
present), used by the C2 counterexample. -/
def reqC2bad : OAuthCallbackRequest :=
  { code := some "authcode", state := some "abc", cookieState := some "xyz",
    cookieVerifier := some "ver" }

/-- Discriminator: is a callback response a redirect (as opposed to a thrown
`HTTPException` rendered as JSON)? -/
def isRedirect : CallbackResponse → Bool
  | CallbackResponse.redirect _ => true
  | CallbackResponse.jsonError _ _ => false

/-- C2 counterexample: a Google callback whose `state` differs from the
stored cookie is answered with a thrown 400 `HTTPException` (a JSON error
response), not a redirect — refuting "every failure outcome results in a
redirect, never a JSON error response". -/
theorem C2_callback_counterexample :
    (googleCallback "http://front" (fun _ _ => none) (fun _ => none)
        (fun _ _ => none) reqC2bad).response
      = CallbackResponse.jsonError 400 "Invalid OAuth state" ∧
    isRedirect
        ((googleCallback "http://front" (fun _ _ => none) (fun _ => none)
          (fun _ _ => none) reqC2bad).response) = false := by
  exact ⟨by decide, by decide⟩

/-- C2 (amended): for each provider, code-exchange and user-info-fetch
failures during the callback are redirected to the frontend error page
tagged with the provider name, while a missing/mismatched `state` or a
missing authorization code (or PKCE verifier) is rejected with a thrown
400 `HTTPException` — a JSON error response, not a redirect. -/
theorem C2_callback_failure_modes :
    (∀ (fu : String) (ex : String → String → Option String)
       (fe : String → Option GoogleUserInfo)
       (hu : GoogleUserInfo → String → Option (String × String))
       (req : OAuthCallbackRequest),
      (falsy req.state = true ∨ falsy req.cookieState = true ∨
          req.state ≠ req.cookieState) →
      (googleCallback fu ex fe hu req).response
        = CallbackResponse.jsonError 400 "Invalid OAuth state") ∧
    (∀ (fu : String) (ex : String → String → Option String)
       (fe : String → Option GoogleUserInfo)
       (hu : GoogleUserInfo → String → Option (String × String))
       (req : OAuthCallbackRequest),
      falsy req.state = false → falsy req.cookieState = false →
      req.state = req.cookieState →
      (falsy req.code = true ∨ falsy req.cookieVerifier = true) →
      (googleCallback fu ex fe hu req).response
        = CallbackResponse.jsonError 400
            "Missing authorization code or verifier") ∧
    (∀ (fu : String) (ex : String → String → Option String)
       (fe : String → Option GoogleUserInfo)
       (hu : GoogleUserInfo → String → Option (String × String))
       (req : OAuthCallbackRequest),
      falsy req.state = false → falsy req.cookieState = false →
      req.state = req.cookieState →
      falsy req.code = false → falsy req.cookieVerifier = false →
      ex (req.code.getD "") (req.cookieVerifier.getD "") = none →
      (googleCallback fu ex fe hu req).response
        = CallbackResponse.redirect (fu ++ "/auth/error?provider=google")) ∧
    (∀ (fu : String) (ex : String → String → Option String)
       (fe : String → Option GoogleUserInfo)
       (hu : GoogleUserInfo → String → Option (String × String))
       (req : OAuthCallbackRequest) (tok : String),
      falsy req.state = false → falsy req.cookieState = false →
      req.state = req.cookieState →
      falsy req.code = false → falsy req.cookieVerifier = false →
      ex (req.code.getD "") (req.cookieVerifier.getD "") = some tok →
      fe tok = none →
      (googleCallback fu ex fe hu req).response
        = CallbackResponse.redirect (fu ++ "/auth/error?provider=google")) ∧
    (∀ (fu : String) (ex : String → Option String)
       (fe : String → Option FacebookUserInfo)
       (hu : FacebookUserInfo → String → Option (String × String))
       (req : OAuthCallbackRequest),
      (falsy req.state = true ∨ falsy req.cookieState = true ∨
          req.state ≠ req.cookieState) →
      (facebookCallback fu ex fe hu req).response
        = CallbackResponse.jsonError 400 "Invalid OAuth state") ∧
    (∀ (fu : String) (ex : String → Option String)
       (fe : String → Option FacebookUserInfo)
       (hu : FacebookUserInfo → String → Option (String × String))
       (req : OAuthCallbackRequest),
      falsy req.state = false → falsy req.cookieState = false →
      req.state = req.cookieState → falsy req.code = true →
      (facebookCallback fu ex fe hu req).response
        = CallbackResponse.jsonError 400 "Missing authorization code") ∧
    (∀ (fu : String) (ex : String → Option String)
       (fe : String → Option FacebookUserInfo)
       (hu : FacebookUserInfo → String → Option (String × String))
       (req : OAuthCallbackRequest),
      falsy req.state = false → falsy req.cookieState = false →
      req.state = req.cookieState → falsy req.code = false →
      ex (req.code.getD "") = none →
      (facebookCallback fu ex fe hu req).response
        = CallbackResponse.redirect (fu ++ "/auth/error?provider=facebook")) ∧
    (∀ (fu : String) (ex : String → Option String)
       (fe : String → Option FacebookUserInfo)
       (hu : FacebookUserInfo → String → Option (String × String))
       (req : OAuthCallbackRequest) (tok : String),
      falsy req.state = false → falsy req.cookieState = false →
      req.state = req.cookieState → falsy req.code = false →
      ex (req.code.getD "") = some tok → fe tok = none →
      (facebookCallback fu ex fe hu req).response
        = CallbackResponse.redirect (fu ++ "/auth/error?provider=facebook")) ∧
    (∀ (fu : String) (ex : String → String → Option String)
       (fe : String → Option TwitterUserInfo)
       (hu : TwitterUserInfo → String → Option (String × String))
       (req : OAuthCallbackRequest),
      (falsy req.state = true ∨ falsy req.cookieState = true ∨
          req.state ≠ req.cookieState) →
      (twitterCallback fu ex fe hu req).response
        = CallbackResponse.jsonError 400 "Invalid OAuth state") ∧
    (∀ (fu : String) (ex : String → String → Option String)
       (fe : String → Option TwitterUserInfo)
       (hu : TwitterUserInfo → String → Option (String × String))
       (req : OAuthCallbackRequest),
      falsy req.state = false → falsy req.cookieState = false →
      req.state = req.cookieState →
      (falsy req.code = true ∨ falsy req.cookieVerifier = true) →
      (twitterCallback fu ex fe hu req).response
        = CallbackResponse.jsonError 400
            "Missing authorization code or verifier") ∧
    (∀ (fu : String) (ex : String → String → Option String)
       (fe : String → Option TwitterUserInfo)
       (hu : TwitterUserInfo → String → Option (String × String))
       (req : OAuthCallbackRequest),
      falsy req.state = false → falsy req.cookieState = false →
      req.state = req.cookieState →
      falsy req.code = false → falsy req.cookieVerifier = false →
      ex (req.code.getD "") (req.cookieVerifier.getD "") = none →
      (twitterCallback fu ex fe hu req).response
        = CallbackResponse.redirect (fu ++ "/auth/error?provider=twitter")) ∧
    (∀ (fu : String) (ex : String → String → Option String)
       (fe : String → Option TwitterUserInfo)
       (hu : TwitterUserInfo → String → Option (String × String))
       (req : OAuthCallbackRequest) (tok : String),
      falsy req.state = false → falsy req.cookieState = false →
      req.state = req.cookieState →
      falsy req.code = false → falsy req.cookieVerifier = false →
      ex (req.code.getD "") (req.cookieVerifier.getD "") = some tok →
      fe tok = none →
      (twitterCallback fu ex fe hu req).response
        = CallbackResponse.redirect (fu ++ "/auth/error?provider=twitter")) := by
  refine ⟨?_, ?_, ?_, ?_, ?_, ?_, ?_, ?_, ?_, ?_, ?_, ?_⟩
  · intro fu ex fe hu req h
    simp only [googleCallback, if_pos h]
  · intro fu ex fe hu req hs hcs heq hcode
    have h1 : ¬(falsy req.state = true ∨ falsy req.cookieState = true ∨
        req.state ≠ req.cookieState) := by simp [hs, hcs, heq]
    simp only [googleCallback, if_neg h1, if_pos hcode]
  · intro fu ex fe hu req hs hcs heq hc hv hex
    have h1 : ¬(falsy req.state = true ∨ falsy req.cookieState = true ∨
        req.state ≠ req.cookieState) := by simp [hs, hcs, heq]
    have h2 : ¬(falsy req.code = true ∨ falsy req.cookieVerifier = true) := by
      simp [hc, hv]
    simp only [googleCallback, if_neg h1, if_neg h2, hex]
  · intro fu ex fe hu req tok hs hcs heq hc hv hex hfe
    have h1 : ¬(falsy req.state = true ∨ falsy req.cookieState = true ∨
        req.state ≠ req.cookieState) := by simp [hs, hcs, heq]
    have h2 : ¬(falsy req.code = true ∨ falsy req.cookieVerifier = true) := by
      simp [hc, hv]
    simp only [googleCallback, if_neg h1, if_neg h2, hex, hfe]
  · intro fu ex fe hu req h
    simp only [facebookCallback, if_pos h]
  · intro fu ex fe hu req hs hcs heq hcode
    have h1 : ¬(falsy req.state = true ∨ falsy req.cookieState = true ∨
        req.state ≠ req.cookieState) := by simp [hs, hcs, heq]
    simp only [facebookCallback, if_neg h1, if_pos hcode]
  · intro fu ex fe hu req hs hcs heq hc hex
    have h1 : ¬(falsy req.state = true ∨ falsy req.cookieState = true ∨
        req.state ≠ req.cookieState) := by simp [hs, hcs, heq]
    have h2 : ¬(falsy req.code = true) := by simp [hc]
    simp only [facebookCallback, if_neg h1, if_neg h2, hex]
  · intro fu ex fe hu req tok hs hcs heq hc hex hfe
    have h1 : ¬(falsy req.state = true ∨ falsy req.cookieState = true ∨
        req.state ≠ req.cookieState) := by simp [hs, hcs, heq]
    have h2 : ¬(falsy req.code = true) := by simp [hc]
    simp only [facebookCallback, if_neg h1, if_neg h2, hex, hfe]
  · intro fu ex fe hu req h
    simp only [twitterCallback, if_pos h]
  · intro fu ex fe hu req hs hcs heq hcode
    have h1 : ¬(falsy req.state = true ∨ falsy req.cookieState = true ∨
        req.state ≠ req.cookieState) := by simp [hs, hcs, heq]
    simp only [twitterCallback, if_neg h1, if_pos hcode]
  · intro fu ex fe hu req hs hcs heq hc hv hex
    have h1 : ¬(falsy req.state = true ∨ falsy req.cookieState = true ∨
        req.state ≠ req.cookieState) := by simp [hs, hcs, heq]
    have h2 : ¬(falsy req.code = true ∨ falsy req.cookieVerifier = true) := by
      simp [hc, hv]
    simp only [twitterCallback, if_neg h1, if_neg h2, hex]
  · intro fu ex fe hu req tok hs hcs heq hc hv hex hfe
    have h1 : ¬(falsy req.state = true ∨ falsy req.cookieState = true ∨
        req.state ≠ req.cookieState) := by simp [hs, hcs, heq]
    have h2 : ¬(falsy req.code = true ∨ falsy req.cookieVerifier = true) := by
      simp [hc, hv]
    simp only [twitterCallback, if_neg h1, if_neg h2, hex, hfe]

/-- Callback request with every parameter present and a matching state,
used by the C2 witness. -/
def reqC2ok : OAuthCallbackRequest :=
  { code := some "code1", state := some "st1", cookieState := some "st1",
    cookieVerifier := some "ver1" }

/-- Callback request with a matching state but no authorization code, used
by the C2 witness. -/
def reqC2noCode : OAuthCallbackRequest :=
  { code := none, state := some "st1", cookieState := some "st1",
    cookieVerifier := some "ver1" }

/-- C2 witness: concrete instances of the failure modes — state mismatch and
missing code give thrown 400s; exchange and fetch failures give the
provider-tagged error redirect — for all three providers. -/
theorem C2_callback_failure_modes_witness :
    (googleCallback "http://f" (fun _ _ => none) (fun _ => none)
        (fun _ _ => none) reqC2bad).response
      = CallbackResponse.jsonError 400 "Invalid OAuth state" ∧
    (googleCallback "http://f" (fun _ _ => none) (fun _ => none)
        (fun _ _ => none) reqC2noCode).response
      = CallbackResponse.jsonError 400 "Missing authorization code or verifier" ∧
    (googleCallback "http://f" (fun _ _ => none) (fun _ => none)
        (fun _ _ => none) reqC2ok).response
      = CallbackResponse.redirect ("http://f" ++ "/auth/error?provider=google") ∧
    (googleCallback "http://f" (fun _ _ => some "tok") (fun _ => none)
        (fun _ _ => none) reqC2ok).response
      = CallbackResponse.redirect ("http://f" ++ "/auth/error?provider=google") ∧
    (facebookCallback "http://f" (fun _ => none) (fun _ => none)
        (fun _ _ => none) reqC2bad).response
      = CallbackResponse.jsonError 400 "Invalid OAuth state" ∧
    (facebookCallback "http://f" (fun _ => none) (fun _ => none)
        (fun _ _ => none) reqC2noCode).response
      = CallbackResponse.jsonError 400 "Missing authorization code" ∧
    (facebookCallback "http://f" (fun _ => none) (fun _ => none)
        (fun _ _ => none) reqC2ok).response
      = CallbackResponse.redirect ("http://f" ++ "/auth/error?provider=facebook") ∧
    (facebookCallback "http://f" (fun _ => some "tok") (fun _ => none)
        (fun _ _ => none) reqC2ok).response
      = CallbackResponse.redirect ("http://f" ++ "/auth/error?provider=facebook") ∧
    (twitterCallback "http://f" (fun _ _ => none) (fun _ => none)
        (fun _ _ => none) reqC2bad).response
      = CallbackResponse.jsonError 400 "Invalid OAuth state" ∧
    (twitterCallback "http://f" (fun _ _ => none) (fun _ => none)
        (fun _ _ => none) reqC2noCode).response
      = CallbackResponse.jsonError 400 "Missing authorization code or verifier" ∧
    (twitterCallback "http://f" (fun _ _ => none) (fun _ => none)
        (fun _ _ => none) reqC2ok).response
      = CallbackResponse.redirect ("http://f" ++ "/auth/error?provider=twitter") ∧
    (twitterCallback "http://f" (fun _ _ => some "tok") (fun _ => none)
        (fun _ _ => none) reqC2ok).response
      = CallbackResponse.redirect ("http://f" ++ "/auth/error?provider=twitter") := by
  refine ⟨?_, ?_, ?_, ?_, ?_, ?_, ?_, ?_, ?_, ?_, ?_, ?_⟩
  · exact C2_callback_failure_modes.1 "http://f" _ _ _ reqC2bad
      (Or.inr (Or.inr (by decide)))
  · exact C2_callback_failure_modes.2.1 "http://f" _ _ _ reqC2noCode
      rfl rfl rfl (Or.inl rfl)
  · exact C2_callback_failure_modes.2.2.1 "http://f" _ _ _ reqC2ok
      rfl rfl rfl rfl rfl rfl
  · exact C2_callback_failure_modes.2.2.2.1 "http://f" _ _ _ reqC2ok "tok"
      rfl rfl rfl rfl rfl rfl rfl
  · exact C2_callback_failure_modes.2.2.2.2.1 "http://f" _ _ _ reqC2bad
      (Or.inr (Or.inr (by decide)))
  · exact C2_callback_failure_modes.2.2.2.2.2.1 "http://f" _ _ _ reqC2noCode
      rfl rfl rfl rfl
  · exact C2_callback_failure_modes.2.2.2.2.2.2.1 "http://f" _ _ _ reqC2ok
      rfl rfl rfl rfl rfl
  · exact C2_callback_failure_modes.2.2.2.2.2.2.2.1 "http://f" _ _ _ reqC2ok
      "tok" rfl rfl rfl rfl rfl rfl
  · exact C2_callback_failure_modes.2.2.2.2.2.2.2.2.1 "http://f" _ _ _ reqC2bad
      (Or.inr (Or.inr (by decide)))
  · exact C2_callback_failure_modes.2.2.2.2.2.2.2.2.2.1 "http://f" _ _ _
      reqC2noCode rfl rfl rfl (Or.inl rfl)
  · exact C2_callback_failure_modes.2.2.2.2.2.2.2.2.2.2.1 "http://f" _ _ _
      reqC2ok rfl rfl rfl rfl rfl rfl
  · exact C2_callback_failure_modes.2.2.2.2.2.2.2.2.2.2.2 "http://f" _ _ _
      reqC2ok "tok" rfl rfl rfl rfl rfl rfl rfl

/-- Callback request with a mismatched `state` and a stale verifier cookie,
used by the C3 counterexample and witness. -/
def reqC3 : OAuthCallbackRequest :=
  { code := some "c", state := some "abc", cookieState := some "xyz",
    cookieVerifier := some "stale" }

/-- C3 counterexample: the Facebook callback, on a mismatched-state request
carrying a stale `oauth_code_verifier` cookie, rejects before any network
call but clears only `oauth_state` — the `oauth_code_verifier` cookie is
not cleared, refuting the claim's "the oauth_state and
oauth_code_verifier cookies are cleared" for every callback. -/
theorem C3_facebook_verifier_not_cleared :
    ((facebookCallback "http://front" (fun _ => none) (fun _ => none)
        (fun _ _ => none) reqC3).clearedCookies.contains "oauth_code_verifier")
      = false ∧
    (facebookCallback "http://front" (fun _ => none) (fun _ => none)
        (fun _ _ => none) reqC3).response
      = CallbackResponse.jsonError 400 "Invalid OAuth state" ∧
    (facebookCallback "http://front" (fun _ => none) (fun _ => none)
        (fun _ _ => none) reqC3).networkCalls = [] := by
  exact ⟨by decide, by decide, by decide⟩

/-- C3 (amended): a callback whose `state` is missing or differs from the
stored cookie is rejected with a 400 before any provider call (no code
exchange, no user-info fetch); the Google and Twitter callbacks clear
both the `oauth_state` and `oauth_code_verifier` cookies on every request
regardless of outcome, while the Facebook callback (which uses no PKCE
verifier) clears only `oauth_state`. -/
theorem C3_state_mismatch_rejected_before_network :
    (∀ (fu : String) (ex : String → String → Option String)
       (fe : String → Option GoogleUserInfo)
       (hu : GoogleUserInfo → String → Option (String × String))
       (req : OAuthCallbackRequest),
      (falsy req.state = true ∨ falsy req.cookieState = true ∨
          req.state ≠ req.cookieState) →
      googleCallback fu ex fe hu req
        = { response := CallbackResponse.jsonError 400 "Invalid OAuth state"
            clearedCookies := ["oauth_state", "oauth_code_verifier"]
            networkCalls := [] }) ∧
    (∀ (fu : String) (ex : String → Option String)
       (fe : String → Option FacebookUserInfo)
       (hu : FacebookUserInfo → String → Option (String × String))
       (req : OAuthCallbackRequest),
      (falsy req.state = true ∨ falsy req.cookieState = true ∨
          req.state ≠ req.cookieState) →
      facebookCallback fu ex fe hu req
        = { response := CallbackResponse.jsonError 400 "Invalid OAuth state"
            clearedCookies := ["oauth_state"]
            networkCalls := [] }) ∧
    (∀ (fu : String) (ex : String → String → Option String)
       (fe : String → Option TwitterUserInfo)
       (hu : TwitterUserInfo → String → Option (String × String))
       (req : OAuthCallbackRequest),
      (falsy req.state = true ∨ falsy req.cookieState = true ∨
          req.state ≠ req.cookieState) →
      twitterCallback fu ex fe hu req
        = { response := CallbackResponse.jsonError 400 "Invalid OAuth state"
            clearedCookies := ["oauth_state", "oauth_code_verifier"]
            networkCalls := [] }) ∧
    (∀ (fu : String) (ex : String → String → Option String)
       (fe : String → Option GoogleUserInfo)
       (hu : GoogleUserInfo → String → Option (String × String))
       (req : OAuthCallbackRequest),
      (googleCallback fu ex fe hu req).clearedCookies
        = ["oauth_state", "oauth_code_verifier"]) ∧
    (∀ (fu : String) (ex : String → Option String)
       (fe : String → Option FacebookUserInfo)
       (hu : FacebookUserInfo → String → Option (String × String))
       (req : OAuthCallbackRequest),
      (facebookCallback fu ex fe hu req).clearedCookies = ["oauth_state"]) ∧
    (∀ (fu : String) (ex : String → String → Option String)
       (fe : String → Option TwitterUserInfo)
       (hu : TwitterUserInfo → String → Option (String × String))
       (req : OAuthCallbackRequest),
      (twitterCallback fu ex fe hu req).clearedCookies
        = ["oauth_state", "oauth_code_verifier"]) := by
  refine ⟨?_, ?_, ?_, ?_, ?_, ?_⟩
  · intro fu ex fe hu req h
    simp only [googleCallback, if_pos h]
  · intro fu ex fe hu req h
    simp only [facebookCallback, if_pos h]
  · intro fu ex fe hu req h
    simp only [twitterCallback, if_pos h]
  · intro fu ex fe hu req
    unfold googleCallback
    split_ifs
    · rfl
    · rfl
    · cases hex : ex (req.code.getD "") (req.cookieVerifier.getD "") with
      | none => rfl
      | some tok =>
        dsimp only
        cases hfe : fe tok with
        | none => rfl
        | some gu =>
          dsimp only
          cases hhu : hu gu tok with
          | none => rfl
          | some pr => cases pr; rfl
  · intro fu ex fe hu req
    unfold facebookCallback
    split_ifs
    · rfl
    · rfl
    · cases hex : ex (req.code.getD "") with
      | none => rfl
      | some tok =>
        dsimp only
        cases hfe : fe tok with
        | none => rfl
        | some fb =>
          dsimp only
          cases hmail : fb.email with
          | none => rfl
          | some em =>
            dsimp only
            cases hhu : hu fb tok with
            | none => rfl
            | some pr => cases pr; rfl
  · intro fu ex fe hu req
    unfold twitterCallback
    split_ifs
    · rfl
    · rfl
    · cases hex : ex (req.code.getD "") (req.cookieVerifier.getD "") with
      | none => rfl
      | some tok =>
        dsimp only
        cases hfe : fe tok with
        | none => rfl
        | some tw =>
          dsimp only
          cases hhu : hu tw tok with
          | none => rfl
          | some pr => cases pr; rfl

/-- C3 witness: the amended statement at the concrete mismatched-state
request, for all three providers. -/
theorem C3_state_mismatch_witness :
    googleCallback "http://f" (fun _ _ => none) (fun _ => none)
        (fun _ _ => none) reqC3
      = { response := CallbackResponse.jsonError 400 "Invalid OAuth state"
          clearedCookies := ["oauth_state", "oauth_code_verifier"]
          networkCalls := [] } ∧
    facebookCallback "http://f" (fun _ => none) (fun _ => none)
        (fun _ _ => none) reqC3
      = { response := CallbackResponse.jsonError 400 "Invalid OAuth state"
          clearedCookies := ["oauth_state"]
          networkCalls := [] } ∧
    twitterCallback "http://f" (fun _ _ => none) (fun _ => none)
        (fun _ _ => none) reqC3
      = { response := CallbackResponse.jsonError 400 "Invalid OAuth state"
          clearedCookies := ["oauth_state", "oauth_code_verifier"]
          networkCalls := [] } := by
  refine ⟨?_, ?_, ?_⟩
  · exact C3_state_mismatch_rejected_before_network.1 "http://f" _ _ _ reqC3
      (Or.inr (Or.inr (by decide)))
  · exact C3_state_mismatch_rejected_before_network.2.1 "http://f" _ _ _ reqC3
      (Or.inr (Or.inr (by decide)))
  · exact C3_state_mismatch_rejected_before_network.2.2.1 "http://f" _ _ _
      reqC3 (Or.inr (Or.inr (by decide)))

end MonorepoAuth
